import Mathlib

/-!
Verification development for `raiden/api/v1/encoding.py`: a marshmallow-based
schema encoding/decoding layer.  The in-repository code (the `AddressField`
codec, the `HexAddressConverter` URL converter, and the concrete schema
declarations) is translated directly from the source.  The generic schema
engine (strict-mode validation, required/missing handling, `OneOf` choice
validation, nested-many list decoding) lives in the marshmallow framework,
which is not part of the repository; those parts are modelled from the spec
and are marked `Modelled from the spec:` in their doc comments.
-/

/-- External wire values (JSON-like): strings, integers, or null. -/
inductive JValue where
  | str : String → JValue
  | int : Int → JValue
  | null : JValue
deriving Repr, DecidableEq

/-- A payload is a string-keyed mapping, modelled as an association list in
insertion order (the order of keys in the JSON object). -/
abbrev Payload := List (String × JValue)

/-- Internal (decoded) values: byte sequences, integers, strings, decimals
(numerator/denominator data), Python `None`, and the marshmallow `missing`
sentinel for a field that was absent and had no declared default. -/
inductive IValue where
  | bytes : List Nat → IValue
  | int : Int → IValue
  | str : String → IValue
  | dec : Int → Nat → IValue
  | pyNone : IValue
  | absent : IValue
deriving Repr, DecidableEq

/-- Error kinds of the spec's taxonomy (§7).  `missing0x` models the
`missing_prefix` error key of the source (`MissingPrefix` in the spec). -/
inductive ErrKind where
  | missing0x
  | invalidHexData
  | invalidSize
  | missingRequiredField
  | unknownField
  | invalidChoice
  | typeMismatch
deriving Repr, DecidableEq

/-- A structured validation error: a kind together with a field path. -/
structure VError where
  kind : ErrKind
  path : String
deriving Repr, DecidableEq

/-- Outcome of a single field codec on failure: either a structured error
kind raised through `self.fail(...)`, or a bare uncaught Python exception
(e.g. the `TypeError` raised by slicing a non-string). -/
inductive FieldFail where
  | kind : ErrKind → FieldFail
  | bare : FieldFail
deriving Repr, DecidableEq

/-- Outcome of a whole decode call on failure: a structured, field-scoped
error, or a bare uncaught exception propagating out of a codec. -/
inductive LoadFail where
  | structured : VError → LoadFail
  | bare : LoadFail
deriving Repr, DecidableEq

/-- Value of a single hex digit character, `none` when the character is not
a hex digit.  Mirrors what Python's `str.decode('hex')` accepts per
character (both cases allowed). -/
def hexDigit? (c : Char) : Option Nat :=
  if '0' ≤ c ∧ c ≤ '9' then some (c.toNat - '0'.toNat)
  else if 'a' ≤ c ∧ c ≤ 'f' then some (c.toNat - 'a'.toNat + 10)
  else if 'A' ≤ c ∧ c ≤ 'F' then some (c.toNat - 'A'.toNat + 10)
  else none

/-- Hex-decode a character sequence two digits at a time, as Python's
`str.decode('hex')` does: fails (`none`, modelling the `TypeError`) on an
odd-length string or on any non-hex character. -/
def hexPairs? : List Char → Option (List Nat)
  | [] => some []
  | [_] => none
  | c1 :: c2 :: rest =>
    match hexDigit? c1, hexDigit? c2, hexPairs? rest with
    | some h, some l, some bs => some ((16 * h + l) :: bs)
    | _, _, _ => none

/-- Lowercase hex digit character for a value below 16. -/
def hexDigitChar (n : Nat) : Char :=
  if n < 10 then Char.ofNat ('0'.toNat + n) else Char.ofNat ('a'.toNat + n - 10)

/-- Two lowercase hex characters for one byte. -/
def byteHex (b : Nat) : List Char :=
  [hexDigitChar (b / 16), hexDigitChar (b % 16)]

/-- Modelled from the spec: `address_encoder` from `pyethapp.jsonrpc` (the
library is not part of the repository).  Per spec §4.1 the encoder returns
`"0x"` followed by the lowercase hex rendering of the byte sequence. -/
def address_encoder (b : List Nat) : String :=
  String.mk ('0' :: 'x' :: (b.map byteHex).flatten)

/-- `AddressField._serialize` from the source: delegates to
`address_encoder`. -/
def AddressField_serialize (b : List Nat) : String :=
  address_encoder b

/-- `AddressField._deserialize` from the source (encoding.py lines 72-84):
on a string, check the `0x` marker (`self.fail('missing_prefix')`), then
hex-decode the remainder (`self.fail('invalid_data')` on `TypeError` from
`.decode('hex')`), then check the decoded length is 20
(`self.fail('invalid_size')`).  On a non-string value, `value[:2]` raises an
uncaught Python `TypeError`, modelled as `FieldFail.bare`. -/
def AddressField_deserialize (v : JValue) : Except FieldFail IValue :=
  match v with
  | .str s =>
    if s.data.take 2 ≠ ['0', 'x'] then .error (.kind .missing0x)
    else
      match hexPairs? (s.data.drop 2) with
      | none => .error (.kind .invalidHexData)
      | some bs =>
        if bs.length ≠ 20 then .error (.kind .invalidSize)
        else .ok (.bytes bs)
  | _ => .error .bare

/-- `HexAddressConverter.to_python` from the source (encoding.py lines
44-56): the same three checks as `AddressField._deserialize`, but every
failure raises the same undistinguished `werkzeug` `ValidationError`,
modelled as `none`. -/
def HexAddressConverter_to_python (s : String) : Option (List Nat) :=
  if s.data.take 2 ≠ ['0', 'x'] then none
  else
    match hexPairs? (s.data.drop 2) with
    | none => none
    | some bs => if bs.length ≠ 20 then none else some bs

/-- `HexAddressConverter.to_url` from the source: delegates to
`address_encoder`. -/
def HexAddressConverter_to_url (b : List Nat) : String :=
  address_encoder b

/-- Spec-side predicate: a hex digit character (`0-9`, `a-f`, `A-F`),
defined independently of the decoder. -/
def isHexDigitChar (c : Char) : Bool :=
  ('0' ≤ c && c ≤ '9') || ('a' ≤ c && c ≤ 'f') || ('A' ≤ c && c ≤ 'F')

/-- Spec-side predicate: a valid hex digit sequence (even length, every
character a hex digit), per spec §4.1 "odd length or non-hex character". -/
def validHexSeq (cs : List Char) : Bool :=
  cs.length % 2 == 0 && cs.all isHexDigitChar

/-- Field codecs used by the schema registry: `AddressField`, marshmallow
`fields.Integer`, `fields.String`, `fields.Decimal`. -/
inductive Codec where
  | address
  | integer
  | string
  | decimal
deriving Repr, DecidableEq

/-- Modelled from the spec: marshmallow `fields.Integer` deserialization
(the framework is not part of the repository).  Per spec §7, a
non-conforming primitive type fails `TypeMismatch`. -/
def IntegerField_deserialize (v : JValue) : Except FieldFail IValue :=
  match v with
  | .int n => .ok (.int n)
  | _ => .error (.kind .typeMismatch)

/-- Modelled from the spec: marshmallow `fields.String` deserialization.
Per spec §7, a non-conforming primitive type fails `TypeMismatch`. -/
def StringField_deserialize (v : JValue) : Except FieldFail IValue :=
  match v with
  | .str s => .ok (.str s)
  | _ => .error (.kind .typeMismatch)

/-- Modelled from the spec: marshmallow `fields.Decimal` deserialization.
An integer wire value decodes to the decimal it denotes; a non-conforming
primitive type fails `TypeMismatch`. -/
def DecimalField_deserialize (v : JValue) : Except FieldFail IValue :=
  match v with
  | .int n => .ok (.dec n 1)
  | _ => .error (.kind .typeMismatch)

/-- Dispatch a codec's deserialize. -/
def Codec.deserialize : Codec → JValue → Except FieldFail IValue
  | .address, v => AddressField_deserialize v
  | .integer, v => IntegerField_deserialize v
  | .string, v => StringField_deserialize v
  | .decimal, v => DecimalField_deserialize v

/-- Dispatch a codec's serialize (the dump direction).  Per spec §4.3 the
source object is assumed schema-shaped; a shape mismatch falls back to
null. -/
def Codec.serialize : Codec → IValue → JValue
  | .address, .bytes b => .str (address_encoder b)
  | .integer, .int n => .int n
  | .string, .str s => .str s
  | .decimal, .int n => .int n
  | _, _ => .null

/-- A field specification: name, codec, required flag, declared default for
an absent field (marshmallow's `missing=` argument), and the optional
`validate.OneOf` choice set. -/
structure FieldSpec where
  name : String
  codec : Codec
  required : Bool
  missingDefault : Option IValue
  allowed : Option (List String)
deriving Repr, DecidableEq

/-- Construction target of a schema: the `decoding_class` of the source's
`class Meta` — either the plain `dict` type or a nominal domain class. -/
inductive Target where
  | dict
  | obj : String → Target
deriving Repr, DecidableEq

/-- Result of a successful decode: a plain string-keyed mapping, a nominal
domain object, or a collection-wrapper object holding decoded elements. -/
inductive Decoded where
  | dict : List (String × IValue) → Decoded
  | obj : String → List (String × IValue) → Decoded
  | listObj : String → List Decoded → Decoded

/-- A schema definition: the ordered field specifications and the
construction target. -/
structure SchemaDef where
  fieldSpecs : List FieldSpec
  target : Target

/-- A list schema: an element schema and the collection construction
target's name (the envelope key is always `data`, as in the source). -/
structure ListSchemaDef where
  element : SchemaDef
  target : String

/-- First-occurrence lookup in a string-keyed association list (Python dict
access). -/
def alook {α : Type} (k : String) : List (String × α) → Option α
  | [] => none
  | (k', v) :: rest => if k' = k then some v else alook k rest

/-- Modelled from the spec: the strict-mode pass (§4.3 step 1), executed by
the marshmallow framework when `strict = True`.  Returns the first payload
key not among the declared field names, if any. -/
def firstUnknown (names : List String) : Payload → Option String
  | [] => none
  | (k, _) :: rest => if k ∈ names then firstUnknown names rest else some k

/-- Modelled from the spec: per-field processing (§4.3 step 2), executed by
the marshmallow framework.  If the field is absent: required with no
default fails `MissingRequiredField`, otherwise the declared default (or
the `absent` sentinel) is substituted.  If present: the codec decodes the
raw value (a structured codec failure gets the field's name as its path; a
bare exception propagates), then the `OneOf` choice set, when declared, is
checked against the external representation. -/
def decodeField (f : FieldSpec) (payload : Payload) : Except LoadFail IValue :=
  match alook f.name payload with
  | none =>
    match f.missingDefault with
    | some d => .ok d
    | none =>
      if f.required then .error (.structured ⟨.missingRequiredField, f.name⟩)
      else .ok .absent
  | some v =>
    match f.codec.deserialize v with
    | .error (.kind k) => .error (.structured ⟨k, f.name⟩)
    | .error .bare => .error .bare
    | .ok iv =>
      match f.allowed with
      | none => .ok iv
      | some choices =>
        match v with
        | .str s =>
          if s ∈ choices then .ok iv
          else .error (.structured ⟨.invalidChoice, f.name⟩)
        | _ => .error (.structured ⟨.invalidChoice, f.name⟩)

/-- Modelled from the spec: process the declared fields in order, aborting
at the first failure (§7 propagation policy). -/
def decodeFields (payload : Payload) : List FieldSpec → Except LoadFail (List (String × IValue))
  | [] => .ok []
  | f :: rest =>
    match decodeField f payload with
    | .error e => .error e
    | .ok iv =>
      match decodeFields payload rest with
      | .error e => .error e
      | .ok m => .ok ((f.name, iv) :: m)

/-- Invoke the construction target with the complete name-to-value mapping
(`BaseSchema.make_object` in the source: `decoding_class(**data)`). -/
def applyTarget : Target → List (String × IValue) → Decoded
  | .dict, m => .dict m
  | .obj n, m => .obj n m

/-- Modelled from the spec: a full strict-mode schema decode (§4.3): the
strict pass, then the per-field pass in declared order, then the
construction target — the sole place an object is produced. -/
def schemaLoad (sch : SchemaDef) (payload : Payload) : Except LoadFail Decoded :=
  match firstUnknown (sch.fieldSpecs.map FieldSpec.name) payload with
  | some k => .error (.structured ⟨.unknownField, k⟩)
  | none =>
    match decodeFields payload sch.fieldSpecs with
    | .error e => .error e
    | .ok m => .ok (applyTarget sch.target m)

/-- Encode one object (§4.3 encode): for each declared field in order, read
the field from the object's mapping, apply the codec's serialize, and write
it under the field name. -/
def schemaDump (sch : SchemaDef) (m : List (String × IValue)) : Payload :=
  sch.fieldSpecs.map (fun f => (f.name, f.codec.serialize ((alook f.name m).getD .absent)))

/-- Field mapping carried by a decoded object (empty for a collection). -/
def Decoded.fieldsOf : Decoded → List (String × IValue)
  | .dict m => m
  | .obj _ m => m
  | .listObj _ _ => []

/-- Element sequence carried by a decoded collection. -/
def Decoded.elemsOf : Decoded → List Decoded
  | .dict _ => []
  | .obj _ _ => []
  | .listObj _ ds => ds

/-- Modelled from the spec: decode the elements of a nested-many field in
order, aborting at the first element failure and qualifying its path with
the element index (§4.4). -/
def listLoadAux (sch : SchemaDef) (i : Nat) : List Payload → Except LoadFail (List Decoded)
  | [] => .ok []
  | p :: rest =>
    match schemaLoad sch p with
    | .error (.structured e) => .error (.structured ⟨e.kind, toString i ++ "." ++ e.path⟩)
    | .error .bare => .error .bare
    | .ok d =>
      match listLoadAux sch (i + 1) rest with
      | .error e => .error e
      | .ok ds => .ok (d :: ds)

/-- `BaseListSchema` decode: `wrap_data_envelope` nests the raw sequence
under the `data` key, the nested-many field decodes each element, and
`make_object` unwraps `data['data']` and applies the collection target. -/
def listSchemaLoad (ls : ListSchemaDef) (ps : List Payload) : Except LoadFail Decoded :=
  let enveloped : List (String × List Payload) := [("data", ps)]
  match alook "data" enveloped with
  | none => .error .bare
  | some raw =>
    match listLoadAux ls.element 0 raw with
    | .error e => .error e
    | .ok ds => .ok (.listObj ls.target ds)

/-- `BaseListSchema` encode: dump each element with the element schema
under the `data` envelope key, then `unwrap_data_envelope` returns
`data['data']` — the bare element sequence, with the envelope removed. -/
def listSchemaDump (ls : ListSchemaDef) (d : Decoded) : List Payload :=
  let enveloped : List (String × List Payload) :=
    [("data", d.elemsOf.map (fun e => schemaDump ls.element e.fieldsOf))]
  ((alook "data" enveloped).getD [])

/-- Modelled from the spec: `DEFAULT_SETTLE_TIMEOUT` from `raiden.settings`
(not part of the repository); the spec calls it `D_SETTLE` and does not fix
its value, so a representative value is used — no claim depends on it. -/
def DEFAULT_SETTLE_TIMEOUT : Int := 100

/-- Modelled from the spec: `DEFAULT_REVEAL_TIMEOUT` from `raiden.settings`
(`D_REVEAL`); representative value, no claim depends on it. -/
def DEFAULT_REVEAL_TIMEOUT : Int := 30

/-- Modelled from the spec: `DEFAULT_INITIAL_CHANNEL_TARGET` from
`raiden.settings` (`D_TARGET`); representative value. -/
def DEFAULT_INITIAL_CHANNEL_TARGET : Int := 3

/-- Modelled from the spec: `DEFAULT_JOINABLE_FUNDS_TARGET` from
`raiden.settings` (`D_JOINABLE`), a decimal; representative value 2/5. -/
def DEFAULT_JOINABLE_FUNDS_TARGET : IValue := .dec 2 5

/-- Modelled from the spec: `CHANNEL_STATE_OPENED` from
`raiden.transfer.state` (not part of the repository); spec §6 gives the
enum as `{open, closed, settled}`. -/
def CHANNEL_STATE_OPENED : String := "open"

/-- Modelled from the spec: `CHANNEL_STATE_CLOSED` from
`raiden.transfer.state`. -/
def CHANNEL_STATE_CLOSED : String := "closed"

/-- Modelled from the spec: `CHANNEL_STATE_SETTLED` from
`raiden.transfer.state`. -/
def CHANNEL_STATE_SETTLED : String := "settled"

/-- `EventRequestSchema` from the source: `from_block` and `to_block`
integers with `missing=None`; `decoding_class = dict`. -/
def EventRequestSchema : SchemaDef :=
  ⟨[⟨"from_block", .integer, false, some .pyNone, none⟩,
    ⟨"to_block", .integer, false, some .pyNone, none⟩],
   .dict⟩

/-- `TokenSchema` from the source: a single `address` field;
`decoding_class = Token`. -/
def TokenSchema : SchemaDef :=
  ⟨[⟨"address", .address, false, none, none⟩], .obj "Token"⟩

/-- `TokensListSchema` from the source: nested-many `TokenSchema` under the
`data` envelope; `decoding_class = TokensList`. -/
def TokensListSchema : ListSchemaDef :=
  ⟨TokenSchema, "TokensList"⟩

/-- `PartnersPerTokenSchema` from the source; `decoding_class =
PartnersPerToken`. -/
def PartnersPerTokenSchema : SchemaDef :=
  ⟨[⟨"partner_address", .address, false, none, none⟩,
    ⟨"channel", .string, false, none, none⟩],
   .obj "PartnersPerToken"⟩

/-- `PartnersPerTokenListSchema` from the source; `decoding_class =
PartnersPerTokenList`. -/
def PartnersPerTokenListSchema : ListSchemaDef :=
  ⟨PartnersPerTokenSchema, "PartnersPerTokenList"⟩

/-- `ChannelSchema` from the source: three address fields, three integer
fields, and `state` constrained by `validate.OneOf([closed, opened,
settled])`; `decoding_class = Channel`. -/
def ChannelSchema : SchemaDef :=
  ⟨[⟨"channel_address", .address, false, none, none⟩,
    ⟨"token_address", .address, false, none, none⟩,
    ⟨"partner_address", .address, false, none, none⟩,
    ⟨"settle_timeout", .integer, false, none, none⟩,
    ⟨"reveal_timeout", .integer, false, none, none⟩,
    ⟨"balance", .integer, false, none, none⟩,
    ⟨"state", .string, false, none,
      some [CHANNEL_STATE_CLOSED, CHANNEL_STATE_OPENED, CHANNEL_STATE_SETTLED]⟩],
   .obj "Channel"⟩

/-- `ChannelRequestSchema` from the source: `channel_address` optional with
`missing=None`, `token_address` and `partner_address` required,
`settle_timeout`/`reveal_timeout` with the settings defaults, `balance` and
`state` with `missing=None`, `state` constrained by `OneOf`;
`decoding_class = dict`. -/
def ChannelRequestSchema : SchemaDef :=
  ⟨[⟨"channel_address", .address, false, some .pyNone, none⟩,
    ⟨"token_address", .address, true, none, none⟩,
    ⟨"partner_address", .address, true, none, none⟩,
    ⟨"settle_timeout", .integer, false, some (.int DEFAULT_SETTLE_TIMEOUT), none⟩,
    ⟨"reveal_timeout", .integer, false, some (.int DEFAULT_REVEAL_TIMEOUT), none⟩,
    ⟨"balance", .integer, false, some .pyNone, none⟩,
    ⟨"state", .string, false, some .pyNone,
      some [CHANNEL_STATE_CLOSED, CHANNEL_STATE_OPENED, CHANNEL_STATE_SETTLED]⟩],
   .dict⟩

/-- `ChannelListSchema` from the source: nested-many `ChannelSchema`;
`decoding_class = ChannelList`. -/
def ChannelListSchema : ListSchemaDef :=
  ⟨ChannelSchema, "ChannelList"⟩

/-- `TokenSwapsSchema` from the source: `role` required and constrained by
`validate.OneOf(['maker', 'taker'])`, the amounts and token addresses all
required; `decoding_class = dict`. -/
def TokenSwapsSchema : SchemaDef :=
  ⟨[⟨"role", .string, true, none, some ["maker", "taker"]⟩,
    ⟨"sending_amount", .integer, true, none, none⟩,
    ⟨"sending_token", .address, true, none, none⟩,
    ⟨"receiving_amount", .integer, true, none, none⟩,
    ⟨"receiving_token", .address, true, none, none⟩],
   .dict⟩

/-- `TransferSchema` from the source: three optional address fields with
`missing=None`, `amount` required, `identifier` optional with
`missing=None`; `decoding_class = dict`. -/
def TransferSchema : SchemaDef :=
  ⟨[⟨"initiator_address", .address, false, some .pyNone, none⟩,
    ⟨"target_address", .address, false, some .pyNone, none⟩,
    ⟨"token_address", .address, false, some .pyNone, none⟩,
    ⟨"amount", .integer, true, none, none⟩,
    ⟨"identifier", .integer, false, some .pyNone, none⟩],
   .dict⟩

/-- `ConnectionsConnectSchema` from the source: `funds` required,
`initial_channel_target` and `joinable_funds_target` with the settings
defaults; `decoding_class = dict`. -/
def ConnectionsConnectSchema : SchemaDef :=
  ⟨[⟨"funds", .integer, true, none, none⟩,
    ⟨"initial_channel_target", .integer, false,
      some (.int DEFAULT_INITIAL_CHANNEL_TARGET), none⟩,
    ⟨"joinable_funds_target", .decimal, false,
      some DEFAULT_JOINABLE_FUNDS_TARGET, none⟩],
   .dict⟩

/-- A hex digit character produced by `hexDigitChar` decodes back to its
value. -/
theorem hexDigit_hexDigitChar : ∀ n : Nat, n < 16 → hexDigit? (hexDigitChar n) = some n := by
  decide

/-- Hex key lemma: `hexDigit?` succeeds exactly on the spec's hex digit
characters. -/
theorem hexDigit_isSome (c : Char) : (hexDigit? c).isSome = isHexDigitChar c := by
  unfold hexDigit? isHexDigitChar
  split_ifs with h1 h2 h3 <;> simp_all

/-- Decoding the hex rendering of a byte sequence recovers the bytes. -/
theorem hexPairs_byteHex (b : List Nat) (h : ∀ x ∈ b, x < 256) :
    hexPairs? ((b.map byteHex).flatten) = some b := by
  induction b with
  | nil => rfl
  | cons x xs ih =>
    have hx : x < 256 := h x (List.mem_cons_self x xs)
    have hhi : x / 16 < 16 := by omega
    have hlo : x % 16 < 16 := by omega
    have e1 := hexDigit_hexDigitChar (x / 16) hhi
    have e2 := hexDigit_hexDigitChar (x % 16) hlo
    have ih' := ih (fun y hy => h y (List.mem_cons_of_mem _ hy))
    simp [byteHex, hexPairs?, e1, e2, ih']
    omega

/-- Splitting the validity predicate over a leading digit pair. -/
theorem validHexSeq_cons2 (c1 c2 : Char) (rest : List Char) :
    validHexSeq (c1 :: c2 :: rest)
      = (isHexDigitChar c1 && (isHexDigitChar c2 && validHexSeq rest)) := by
  simp only [validHexSeq, List.all_cons, List.length_cons]
  have h2 : (rest.length + 1 + 1) % 2 = rest.length % 2 := by omega
  rw [h2]
  cases isHexDigitChar c1 <;> cases isHexDigitChar c2 <;>
    cases rest.length % 2 == 0 <;> cases rest.all isHexDigitChar <;> simp

/-- `hexPairs?` succeeds exactly on valid hex digit sequences (even length,
all hex digits). -/
theorem hexPairs_isSome : ∀ cs : List Char, (hexPairs? cs).isSome = validHexSeq cs
  | [] => by simp [hexPairs?, validHexSeq]
  | [c] => by simp [hexPairs?, validHexSeq]
  | c1 :: c2 :: rest => by
    have ih := hexPairs_isSome rest
    have h1 := hexDigit_isSome c1
    have h2 := hexDigit_isSome c2
    rw [validHexSeq_cons2, ← h1, ← h2, ← ih]
    cases e1 : hexDigit? c1 <;> cases e2 : hexDigit? c2 <;> cases e3 : hexPairs? rest <;>
      simp [hexPairs?, e1, e2, e3]

/-- Whether the identifier field codec accepts a string. -/
def addrAccepted (s : String) : Bool :=
  match AddressField_deserialize (.str s) with
  | .ok _ => true
  | .error _ => false

/-- The byte value the identifier field codec decodes a string to (empty
list when the string is rejected). -/
def addrDecoded (s : String) : List Nat :=
  match AddressField_deserialize (.str s) with
  | .ok (.bytes bs) => bs
  | _ => []

/-- On a string input, a successful identifier decode always yields a byte
value. -/
theorem addr_ok_bytes (s : String) (iv : IValue)
    (h : AddressField_deserialize (.str s) = .ok iv) : ∃ bs, iv = .bytes bs := by
  by_cases h1 : s.data.take 2 = ['0', 'x']
  · cases e : hexPairs? (s.data.drop 2) with
    | none => simp [AddressField_deserialize, h1, e] at h
    | some bs =>
      by_cases h2 : bs.length = 20
      · simp [AddressField_deserialize, h1, e, h2] at h
        exact ⟨bs, h.symm⟩
      · simp [AddressField_deserialize, h1, e, h2] at h
  · simp [AddressField_deserialize, h1] at h

/-- An accepted string decodes to its `addrDecoded` bytes. -/
theorem addrAccepted_ok (s : String) (h : addrAccepted s = true) :
    AddressField_deserialize (.str s) = .ok (.bytes (addrDecoded s)) := by
  unfold addrAccepted at h
  unfold addrDecoded
  cases e : AddressField_deserialize (.str s) with
  | error f => rw [e] at h; simp at h
  | ok iv =>
    obtain ⟨bs, rfl⟩ := addr_ok_bytes s iv e
    rfl

/-- C2: for every 20-byte sequence b, decoding the identifier codec's
encoding of b returns b exactly:
`identifier_decode(identifier_encode(b)) == b`. -/
theorem identifier_roundtrip (b : List Nat) (hlen : b.length = 20)
    (hbyte : ∀ x ∈ b, x < 256) :
    AddressField_deserialize (.str (AddressField_serialize b)) = .ok (.bytes b) := by
  have hhex := hexPairs_byteHex b hbyte
  simp [AddressField_deserialize, AddressField_serialize, address_encoder, hhex, hlen]

/-- C2 witness: the round trip at the concrete 20-byte sequence of value
171 bytes. -/
theorem identifier_roundtrip_witness :
    ((List.replicate 20 171).length = 20 ∧ ∀ x ∈ List.replicate 20 171, x < 256) ∧
    AddressField_deserialize (.str (AddressField_serialize (List.replicate 20 171)))
      = .ok (.bytes (List.replicate 20 171)) :=
  ⟨⟨by decide, by decide⟩, identifier_roundtrip (List.replicate 20 171) (by decide) (by decide)⟩

/-- C3: for every string input, identifier decode fails `MissingPrefix`
(`missing0x`) if the first two characters are not exactly `0x`; otherwise
fails `InvalidHexData` if the remaining characters are not a valid hex
digit sequence (odd length or non-hex character); otherwise fails
`InvalidSize` if the decoded byte length is not exactly 20; otherwise
succeeds with the 20-byte value.  No partial result is ever returned on
failure: each input yields exactly one of these outcomes. -/
theorem identifier_decode_errors (s : String) :
    (s.data.take 2 ≠ ['0', 'x'] →
      AddressField_deserialize (.str s) = .error (.kind .missing0x)) ∧
    (s.data.take 2 = ['0', 'x'] → validHexSeq (s.data.drop 2) = false →
      AddressField_deserialize (.str s) = .error (.kind .invalidHexData)) ∧
    (∀ bs, s.data.take 2 = ['0', 'x'] → hexPairs? (s.data.drop 2) = some bs →
      validHexSeq (s.data.drop 2) = true ∧
      (bs.length ≠ 20 → AddressField_deserialize (.str s) = .error (.kind .invalidSize)) ∧
      (bs.length = 20 → AddressField_deserialize (.str s) = .ok (.bytes bs))) := by
  refine ⟨?_, ?_, ?_⟩
  · intro h
    simp [AddressField_deserialize, h]
  · intro h hv
    cases e : hexPairs? (s.data.drop 2) with
    | none => simp [AddressField_deserialize, h, e]
    | some bs =>
      have : (hexPairs? (s.data.drop 2)).isSome = false := by rw [hexPairs_isSome]; exact hv
      rw [e] at this
      simp at this
  · intro bs h he
    refine ⟨by rw [← hexPairs_isSome, he]; rfl, ?_, ?_⟩
    · intro hb
      simp [AddressField_deserialize, h, he, hb]
    · intro hb
      simp [AddressField_deserialize, h, he, hb]

/-- C3 witness: the three failure branches and the success branch at
concrete inputs — no marker, bad hex digits, 1-byte payload, and a valid
20-byte identifier. -/
theorem identifier_decode_errors_witness :
    AddressField_deserialize (.str "deadbeef") = .error (.kind .missing0x) ∧
    AddressField_deserialize (.str "0xzz") = .error (.kind .invalidHexData) ∧
    AddressField_deserialize (.str "0xaa") = .error (.kind .invalidSize) ∧
    AddressField_deserialize (.str "0x00000000000000000000000000000000000000ff")
      = .ok (.bytes [0, 0, 0, 0, 0, 0, 0, 0, 0, 0, 0, 0, 0, 0, 0, 0, 0, 0, 0, 255]) :=
  ⟨(identifier_decode_errors "deadbeef").1 (by decide),
   (identifier_decode_errors "0xzz").2.1 (by decide) (by decide),
   ((identifier_decode_errors "0xaa").2.2 [170] (by decide) (by decide)).2.1 (by decide),
   ((identifier_decode_errors "0x00000000000000000000000000000000000000ff").2.2
      [0, 0, 0, 0, 0, 0, 0, 0, 0, 0, 0, 0, 0, 0, 0, 0, 0, 0, 0, 255]
      (by decide) (by decide)).2.2 (by decide)⟩

/-- The URL converter's decode agrees pointwise with the field codec's
decode: it succeeds exactly where the field codec succeeds and with the
same bytes. -/
theorem to_python_deserialize (s : String) :
    HexAddressConverter_to_python s =
      match AddressField_deserialize (.str s) with
      | .ok (.bytes bs) => some bs
      | _ => none := by
  by_cases h1 : s.data.take 2 = ['0', 'x']
  · cases e : hexPairs? (s.data.drop 2) with
    | none => simp [HexAddressConverter_to_python, AddressField_deserialize, h1, e]
    | some bs =>
      by_cases h2 : bs.length = 20
      · simp [HexAddressConverter_to_python, AddressField_deserialize, h1, e, h2]
      · simp [HexAddressConverter_to_python, AddressField_deserialize, h1, e, h2]
  · simp [HexAddressConverter_to_python, AddressField_deserialize, h1]

/-- On a string input, every failure of the identifier field codec is a
structured error kind, never a bare exception. -/
theorem addr_str_error_structured (s : String) (f : FieldFail)
    (h : AddressField_deserialize (.str s) = .error f) : ∃ k, f = .kind k := by
  by_cases h1 : s.data.take 2 = ['0', 'x']
  · cases e : hexPairs? (s.data.drop 2) with
    | none =>
      simp [AddressField_deserialize, h1, e] at h
      exact ⟨_, h.symm⟩
    | some bs =>
      by_cases h2 : bs.length = 20
      · simp [AddressField_deserialize, h1, e, h2] at h
      · simp [AddressField_deserialize, h1, e, h2] at h
        exact ⟨_, h.symm⟩
  · simp [AddressField_deserialize, h1] at h
    exact ⟨_, h.symm⟩

/-- C8: the identifier URL path-segment codec has the identical contract to
the identifier field codec: `to_url` encodes every byte value to the same
string as the field codec's serialize, and `to_python` accepts exactly the
strings the field codec's deserialize accepts, with the same decoded bytes,
failing exactly where it fails. -/
theorem url_codec_equiv :
    (∀ b : List Nat, HexAddressConverter_to_url b = AddressField_serialize b) ∧
    (∀ s : String, ∀ bs : List Nat,
      HexAddressConverter_to_python s = some bs ↔
        AddressField_deserialize (.str s) = .ok (.bytes bs)) ∧
    (∀ s : String,
      HexAddressConverter_to_python s = none ↔
        ∃ k, AddressField_deserialize (.str s) = .error (.kind k)) := by
  refine ⟨fun b => rfl, ?_, ?_⟩
  · intro s bs
    rw [to_python_deserialize]
    constructor
    · intro h
      split at h
      · rename_i bs' heq
        cases h
        exact heq
      · cases h
    · intro h
      rw [h]
  · intro s
    rw [to_python_deserialize]
    cases e : AddressField_deserialize (.str s) with
    | ok iv =>
      obtain ⟨bs, rfl⟩ := addr_ok_bytes s iv e
      constructor
      · intro h
        cases h
      · intro h
        obtain ⟨k, hk⟩ := h
        cases hk
    | error f =>
      obtain ⟨k, rfl⟩ := addr_str_error_structured s f e
      constructor
      · intro _
        exact ⟨k, rfl⟩
      · intro _
        rfl

/-- Sample valid identifier strings used by witnesses. -/
def sampleAddr1 : String := "0x00000000000000000000000000000000000000ff"

/-- A second sample valid identifier string. -/
def sampleAddr2 : String := "0x1111111111111111111111111111111111111111"

/-- C7 counterexample: decoding the Token schema on a payload whose
`address` value is the integer 1 (a non-conforming primitive type where a
hex-string identifier is required) surfaces a bare uncaught failure — the
`TypeError` raised by `value[:2]` in `AddressField._deserialize` — not a
structured field-scoped error, refuting the claim at this concrete
input. -/
theorem nonstring_identifier_bare_failure :
    schemaLoad TokenSchema [("address", JValue.int 1)] = .error .bare := rfl

/-- C7 amended: every failure of the identifier field codec on a *string*
raw value is a structured error kind, and the integer field classifies a
non-integer raw value as the structured `TypeMismatch`; but a non-string
raw value reaching the identifier field codec raises an uncaught bare
failure rather than a structured error. -/
theorem structured_errors_scoped (s : String) (f : FieldFail) (n : Int) :
    (AddressField_deserialize (.str s) = .error f → ∃ k, f = .kind k) ∧
    (IntegerField_deserialize (.str s) = .error (.kind .typeMismatch)) ∧
    (AddressField_deserialize (.int n) = .error .bare) ∧
    (AddressField_deserialize .null = .error .bare) :=
  ⟨addr_str_error_structured s f, rfl, rfl, rfl⟩

/-- C7 amended witness: the structured branch at a concrete rejected
string. -/
theorem structured_errors_scoped_witness :
    (∃ k, FieldFail.kind ErrKind.missing0x = .kind k) ∧
    IntegerField_deserialize (.str "zzz") = .error (.kind .typeMismatch) ∧
    AddressField_deserialize (.int 7) = .error .bare ∧
    AddressField_deserialize .null = .error .bare :=
  ⟨(structured_errors_scoped "zzz" (.kind .missing0x) 7).1 rfl,
   (structured_errors_scoped "zzz" (.kind .missing0x) 7).2.1,
   (structured_errors_scoped "zzz" (.kind .missing0x) 7).2.2.1,
   (structured_errors_scoped "zzz" (.kind .missing0x) 7).2.2.2⟩

/-- If every payload key is declared, the strict pass finds no unknown
key. -/
theorem firstUnknown_none (names : List String) (payload : Payload)
    (h : ∀ kv ∈ payload, kv.1 ∈ names) : firstUnknown names payload = none := by
  induction payload with
  | nil => rfl
  | cons kv rest ih =>
    obtain ⟨k, v⟩ := kv
    have hk : k ∈ names := h (k, v) (List.mem_cons_self _ _)
    simp only [firstUnknown, if_pos hk]
    exact ih (fun kv hkv => h kv (List.mem_cons_of_mem _ hkv))

/-- A key found by the strict pass is an undeclared key of the payload. -/
theorem firstUnknown_some (names : List String) (payload : Payload) (k : String)
    (h : firstUnknown names payload = some k) :
    k ∉ names ∧ ∃ v, (k, v) ∈ payload := by
  induction payload with
  | nil => exact absurd h (by simp [firstUnknown])
  | cons kv rest ih =>
    obtain ⟨k', v'⟩ := kv
    by_cases hk : k' ∈ names
    · rw [show firstUnknown names ((k', v') :: rest) = firstUnknown names rest from by
        simp only [firstUnknown, if_pos hk]] at h
      obtain ⟨hn, v, hv⟩ := ih h
      exact ⟨hn, v, List.mem_cons_of_mem _ hv⟩
    · rw [show firstUnknown names ((k', v') :: rest) = some k' from by
        simp only [firstUnknown, if_neg hk]] at h
      cases h
      exact ⟨hk, v', List.mem_cons_self _ _⟩

/-- C1: for every schema decode in strict mode, a payload key not among the
declared field names makes the decode fail `UnknownField` with the
offending key as its path, independent of all other checks (no other
hypothesis is needed). -/
theorem strict_unknown_field (sch : SchemaDef) (payload : Payload) (k : String)
    (h : firstUnknown (sch.fieldSpecs.map FieldSpec.name) payload = some k) :
    k ∉ sch.fieldSpecs.map FieldSpec.name ∧ (∃ v, (k, v) ∈ payload) ∧
      schemaLoad sch payload = .error (.structured ⟨.unknownField, k⟩) := by
  obtain ⟨hn, hv⟩ := firstUnknown_some _ _ _ h
  refine ⟨hn, hv, ?_⟩
  simp [schemaLoad, h]

/-- C1 witness: `Token.decode({address: A, extra: 1})` fails `UnknownField`
with path `extra`. -/
theorem strict_unknown_field_witness :
    "extra" ∉ TokenSchema.fieldSpecs.map FieldSpec.name ∧
    (∃ v, ("extra", v) ∈ [("address", JValue.str sampleAddr1), ("extra", JValue.int 1)]) ∧
    schemaLoad TokenSchema [("address", JValue.str sampleAddr1), ("extra", JValue.int 1)]
      = .error (.structured ⟨.unknownField, "extra"⟩) :=
  strict_unknown_field TokenSchema
    [("address", JValue.str sampleAddr1), ("extra", JValue.int 1)] "extra" (by decide)

/-- C9: for every TokenSwap payload with only declared keys, decode fails
`MissingRequiredField` with path `role` when the role field is absent, and
fails `InvalidChoice` with path `role` when role is present with an
external string value outside the set {maker, taker}, the membership being
checked on the external (pre-decode) representation. -/
theorem tokenswap_role_errors (payload : Payload) (v : String) :
    ((∀ kv ∈ payload, kv.1 ∈ TokenSwapsSchema.fieldSpecs.map FieldSpec.name) →
      alook "role" payload = none →
      schemaLoad TokenSwapsSchema payload
        = .error (.structured ⟨.missingRequiredField, "role"⟩)) ∧
    ((∀ kv ∈ payload, kv.1 ∈ TokenSwapsSchema.fieldSpecs.map FieldSpec.name) →
      alook "role" payload = some (.str v) → v ∉ ["maker", "taker"] →
      schemaLoad TokenSwapsSchema payload
        = .error (.structured ⟨.invalidChoice, "role"⟩)) := by
  constructor
  · intro hnames habs
    have hfu := firstUnknown_none _ _ hnames
    simp only [TokenSwapsSchema, List.map] at hfu
    simp [schemaLoad, hfu, TokenSwapsSchema, decodeFields, decodeField, habs]
  · intro hnames hrole hv
    have hfu := firstUnknown_none _ _ hnames
    simp only [TokenSwapsSchema, List.map] at hfu
    simp [schemaLoad, hfu, TokenSwapsSchema, decodeFields, decodeField, hrole,
      Codec.deserialize, StringField_deserialize, hv]

/-- C9 witness: a payload without `role` fails `MissingRequiredField` path
`role`; a payload with `role = "foo"` fails `InvalidChoice` path `role`. -/
theorem tokenswap_role_errors_witness :
    schemaLoad TokenSwapsSchema [("sending_amount", JValue.int 10)]
      = .error (.structured ⟨.missingRequiredField, "role"⟩) ∧
    schemaLoad TokenSwapsSchema
        [("role", JValue.str "foo"), ("sending_amount", JValue.int 10)]
      = .error (.structured ⟨.invalidChoice, "role"⟩) :=
  ⟨(tokenswap_role_errors [("sending_amount", JValue.int 10)] "foo").1
      (by decide) (by decide),
   (tokenswap_role_errors [("role", JValue.str "foo"), ("sending_amount", JValue.int 10)] "foo").2
      (by decide) (by decide) (by decide)⟩

/-- A successful schema decode always produces the construction target's
value on the decoded field mapping. -/
theorem schemaLoad_target (sch : SchemaDef) (p : Payload) (d : Decoded)
    (h : schemaLoad sch p = .ok d) : ∃ m, d = applyTarget sch.target m := by
  unfold schemaLoad at h
  split at h
  · cases h
  · split at h
    · cases h
    · exact ⟨_, (Except.ok.inj h).symm⟩

/-- A successful list-schema decode always produces the collection target
on the decoded element sequence. -/
theorem listSchemaLoad_target (ls : ListSchemaDef) (ps : List Payload) (d : Decoded)
    (h : listSchemaLoad ls ps = .ok d) : ∃ ds, d = .listObj ls.target ds := by
  simp only [listSchemaLoad, alook] at h
  split at h
  · cases h
  · split at h
    · cases h
    · exact ⟨_, (Except.ok.inj h).symm⟩

/-- C10: successful decode through the ChannelRequest, Transfer, TokenSwap,
ConnectionsConnect, and EventRequest schemas produces a plain string-keyed
name-to-value mapping (the `dict` construction target), not a nominal
domain object; the Token, PartnersPerToken, and Channel schemas and their
list variants construct typed domain objects. -/
theorem decoding_targets :
    (∀ p d, schemaLoad ChannelRequestSchema p = .ok d → ∃ m, d = .dict m) ∧
    (∀ p d, schemaLoad TransferSchema p = .ok d → ∃ m, d = .dict m) ∧
    (∀ p d, schemaLoad TokenSwapsSchema p = .ok d → ∃ m, d = .dict m) ∧
    (∀ p d, schemaLoad ConnectionsConnectSchema p = .ok d → ∃ m, d = .dict m) ∧
    (∀ p d, schemaLoad EventRequestSchema p = .ok d → ∃ m, d = .dict m) ∧
    (∀ p d, schemaLoad TokenSchema p = .ok d → ∃ m, d = .obj "Token" m) ∧
    (∀ p d, schemaLoad PartnersPerTokenSchema p = .ok d →
      ∃ m, d = .obj "PartnersPerToken" m) ∧
    (∀ p d, schemaLoad ChannelSchema p = .ok d → ∃ m, d = .obj "Channel" m) ∧
    (∀ ps d, listSchemaLoad TokensListSchema ps = .ok d →
      ∃ ds, d = .listObj "TokensList" ds) ∧
    (∀ ps d, listSchemaLoad PartnersPerTokenListSchema ps = .ok d →
      ∃ ds, d = .listObj "PartnersPerTokenList" ds) ∧
    (∀ ps d, listSchemaLoad ChannelListSchema ps = .ok d →
      ∃ ds, d = .listObj "ChannelList" ds) :=
  ⟨fun p d h => schemaLoad_target ChannelRequestSchema p d h,
   fun p d h => schemaLoad_target TransferSchema p d h,
   fun p d h => schemaLoad_target TokenSwapsSchema p d h,
   fun p d h => schemaLoad_target ConnectionsConnectSchema p d h,
   fun p d h => schemaLoad_target EventRequestSchema p d h,
   fun p d h => schemaLoad_target TokenSchema p d h,
   fun p d h => schemaLoad_target PartnersPerTokenSchema p d h,
   fun p d h => schemaLoad_target ChannelSchema p d h,
   fun ps d h => listSchemaLoad_target TokensListSchema ps d h,
   fun ps d h => listSchemaLoad_target PartnersPerTokenListSchema ps d h,
   fun ps d h => listSchemaLoad_target ChannelListSchema ps d h⟩

/-- C10 witness: concrete successful decodes through a dict-target schema,
an object-target schema, and a list schema. -/
theorem decoding_targets_witness :
    (∃ m, Decoded.dict
        [("from_block", IValue.pyNone), ("to_block", IValue.pyNone)] = .dict m) ∧
    (∃ m, Decoded.obj "Token"
        [("address", IValue.bytes (addrDecoded sampleAddr1))] = .obj "Token" m) ∧
    (∃ ds, Decoded.listObj "TokensList" [] = .listObj "TokensList" ds) :=
  ⟨decoding_targets.2.2.2.2.1 []
      (.dict [("from_block", IValue.pyNone), ("to_block", IValue.pyNone)]) rfl,
   decoding_targets.2.2.2.2.2.1 [("address", JValue.str sampleAddr1)]
      (.obj "Token" [("address", IValue.bytes (addrDecoded sampleAddr1))]) rfl,
   decoding_targets.2.2.2.2.2.2.2.2.1 []
      (.listObj "TokensList" []) rfl⟩

/-- C6: for every payload containing exactly valid `token_address` and
`partner_address` identifiers (in either order), ChannelRequest decode
succeeds and substitutes the declared defaults for every absent optional
field: `channel_address = None`, `settle_timeout = DEFAULT_SETTLE_TIMEOUT`,
`reveal_timeout = DEFAULT_REVEAL_TIMEOUT`, `balance = None`,
`state = None` — and the result is a plain dict. -/
theorem channel_request_defaults (sA sB : String)
    (ha : addrAccepted sA = true) (hb : addrAccepted sB = true) :
    schemaLoad ChannelRequestSchema
        [("token_address", JValue.str sA), ("partner_address", JValue.str sB)]
      = .ok (.dict
          [("channel_address", .pyNone),
           ("token_address", .bytes (addrDecoded sA)),
           ("partner_address", .bytes (addrDecoded sB)),
           ("settle_timeout", .int DEFAULT_SETTLE_TIMEOUT),
           ("reveal_timeout", .int DEFAULT_REVEAL_TIMEOUT),
           ("balance", .pyNone),
           ("state", .pyNone)]) ∧
    schemaLoad ChannelRequestSchema
        [("partner_address", JValue.str sB), ("token_address", JValue.str sA)]
      = .ok (.dict
          [("channel_address", .pyNone),
           ("token_address", .bytes (addrDecoded sA)),
           ("partner_address", .bytes (addrDecoded sB)),
           ("settle_timeout", .int DEFAULT_SETTLE_TIMEOUT),
           ("reveal_timeout", .int DEFAULT_REVEAL_TIMEOUT),
           ("balance", .pyNone),
           ("state", .pyNone)]) := by
  have h1 := addrAccepted_ok sA ha
  have h2 := addrAccepted_ok sB hb
  constructor <;>
    simp [schemaLoad, firstUnknown, ChannelRequestSchema, decodeFields, decodeField,
      alook, Codec.deserialize, h1, h2, applyTarget]

/-- C6 witness: the defaults at two concrete valid identifiers. -/
theorem channel_request_defaults_witness :
    (addrAccepted sampleAddr1 = true ∧ addrAccepted sampleAddr2 = true) ∧
    schemaLoad ChannelRequestSchema
        [("token_address", JValue.str sampleAddr1), ("partner_address", JValue.str sampleAddr2)]
      = .ok (.dict
          [("channel_address", .pyNone),
           ("token_address", .bytes (addrDecoded sampleAddr1)),
           ("partner_address", .bytes (addrDecoded sampleAddr2)),
           ("settle_timeout", .int DEFAULT_SETTLE_TIMEOUT),
           ("reveal_timeout", .int DEFAULT_REVEAL_TIMEOUT),
           ("balance", .pyNone),
           ("state", .pyNone)]) :=
  ⟨⟨by decide, by decide⟩,
   (channel_request_defaults sampleAddr1 sampleAddr2 (by decide) (by decide)).1⟩

/-- Element decoding aborts at the first failing element, qualifying the
error path with the element's index (counted from the start index). -/
theorem listLoadAux_firstFail (sch : SchemaDef) (bad : Payload) (rest : List Payload)
    (e : VError) (hbad : schemaLoad sch bad = .error (.structured e)) :
    ∀ (good : List Payload) (i : Nat), (∀ p ∈ good, ∃ d, schemaLoad sch p = .ok d) →
      listLoadAux sch i (good ++ bad :: rest)
        = .error (.structured ⟨e.kind, toString (i + good.length) ++ "." ++ e.path⟩)
  | [], i, _ => by simp [listLoadAux, hbad]
  | p :: good', i, hgood => by
    obtain ⟨d, hd⟩ := hgood p (List.mem_cons_self _ _)
    have ih := listLoadAux_firstFail sch bad rest e hbad good' (i + 1)
      (fun q hq => hgood q (List.mem_cons_of_mem _ hq))
    have harith : i + 1 + good'.length = i + (good'.length + 1) := by omega
    rw [harith] at ih
    simp [listLoadAux, hd, ih]

/-- C5: for every list-schema decode, if an element fails validation while
all elements before it decode, the whole decode fails with a single
structured error whose path is the index-qualified field path of the first
failing element, and no collection object is produced. -/
theorem list_decode_first_failure (ls : ListSchemaDef) (good : List Payload)
    (bad : Payload) (rest : List Payload) (e : VError)
    (hgood : ∀ p ∈ good, ∃ d, schemaLoad ls.element p = .ok d)
    (hbad : schemaLoad ls.element bad = .error (.structured e)) :
    listSchemaLoad ls (good ++ bad :: rest)
      = .error (.structured ⟨e.kind, toString good.length ++ "." ++ e.path⟩) := by
  have h := listLoadAux_firstFail ls.element bad rest e hbad good 0 hgood
  rw [Nat.zero_add] at h
  simp [listSchemaLoad, alook, h]

/-- A fully valid Channel element payload used by the C5 witness. -/
def sampleChannelPayload : Payload :=
  [("channel_address", JValue.str sampleAddr1),
   ("token_address", JValue.str sampleAddr1),
   ("partner_address", JValue.str sampleAddr2),
   ("settle_timeout", JValue.int 100),
   ("reveal_timeout", JValue.int 30),
   ("balance", JValue.int 0),
   ("state", JValue.str "open")]

/-- A Channel element payload with an out-of-choice state value. -/
def bogusChannelPayload : Payload :=
  [("state", JValue.str "bogus")]

/-- C5 witness: `ChannelList.decode` of a valid element followed by one
with state `bogus` fails with path `1.state` and produces no object. -/
theorem list_decode_first_failure_witness :
    listSchemaLoad ChannelListSchema [sampleChannelPayload, bogusChannelPayload]
      = .error (.structured ⟨.invalidChoice, "1.state"⟩) := by
  have h := list_decode_first_failure ChannelListSchema [sampleChannelPayload]
    bogusChannelPayload [] ⟨.invalidChoice, "state"⟩
    (by
      intro p hp
      rw [List.mem_singleton] at hp
      subst hp
      exact ⟨_, rfl⟩)
    rfl
  exact h

/-- A Token wire payload for an identifier string. -/
def tokenPayload (s : String) : Payload := [("address", JValue.str s)]

/-- The Token object a valid payload decodes to. -/
def tokenObjOf (s : String) : Decoded :=
  .obj "Token" [("address", .bytes (addrDecoded s))]

/-- Decoding one valid Token payload yields the Token object with the
decoded address bytes. -/
theorem token_load_ok (s : String) (h : addrAccepted s = true) :
    schemaLoad TokenSchema (tokenPayload s) = .ok (tokenObjOf s) := by
  have h1 := addrAccepted_ok s h
  simp [schemaLoad, TokenSchema, tokenPayload, tokenObjOf, firstUnknown, decodeFields,
    decodeField, alook, Codec.deserialize, h1, applyTarget]

/-- Element decoding of a list of valid Token payloads succeeds elementwise
in order, for any start index. -/
theorem token_list_aux (ss : List String) :
    ∀ i : Nat, (∀ s ∈ ss, addrAccepted s = true) →
      listLoadAux TokenSchema i (ss.map tokenPayload) = .ok (ss.map tokenObjOf) := by
  induction ss with
  | nil => intro i _; rfl
  | cons s ss' ih =>
    intro i h
    have hs := token_load_ok s (h s (List.mem_cons_self _ _))
    have ih' := ih (i + 1) (fun t ht => h t (List.mem_cons_of_mem _ ht))
    simp [listLoadAux, hs, ih']

/-- C4: for every list of valid Token payloads, list-schema decode followed
by encode returns the sequence of element encodings in the original order
with the envelope removed: the decode yields the `TokensList` wrapper of
the element objects in order, its encode is the list of re-encoded
elements, and every key of the external representation is `address` — the
envelope key `data` never appears. -/
theorem token_list_roundtrip (ss : List String)
    (h : ∀ s ∈ ss, addrAccepted s = true) :
    listSchemaLoad TokensListSchema (ss.map tokenPayload)
      = .ok (.listObj "TokensList" (ss.map tokenObjOf)) ∧
    listSchemaDump TokensListSchema (.listObj "TokensList" (ss.map tokenObjOf))
      = ss.map (fun s => [("address", JValue.str (AddressField_serialize (addrDecoded s)))]) ∧
    ∀ q ∈ listSchemaDump TokensListSchema (.listObj "TokensList" (ss.map tokenObjOf)),
      ∀ kv ∈ q, kv.1 = "address" := by
  refine ⟨?_, ?_, ?_⟩
  · have haux := token_list_aux ss 0 h
    simp [listSchemaLoad, alook, haux, TokensListSchema]
  · simp only [listSchemaDump, Decoded.elemsOf, alook, List.map_map]
    rfl
  · intro q hq kv hkv
    simp only [listSchemaDump, Decoded.elemsOf, alook, List.map_map] at hq
    simp only [if_pos, Option.getD_some] at hq
    obtain ⟨s, _, rfl⟩ := List.mem_map.mp hq
    simp only [Function.comp, tokenObjOf, Decoded.fieldsOf, schemaDump, TokensListSchema,
      TokenSchema, List.map] at hkv
    rw [List.mem_singleton] at hkv
    subst hkv
    rfl

/-- C4 witness: decode-then-encode at two concrete valid payloads. -/
theorem token_list_roundtrip_witness :
    listSchemaLoad TokensListSchema [tokenPayload sampleAddr1, tokenPayload sampleAddr2]
      = .ok (.listObj "TokensList" [tokenObjOf sampleAddr1, tokenObjOf sampleAddr2]) ∧
    listSchemaDump TokensListSchema
        (.listObj "TokensList" [tokenObjOf sampleAddr1, tokenObjOf sampleAddr2])
      = [[("address", JValue.str (AddressField_serialize (addrDecoded sampleAddr1)))],
         [("address", JValue.str (AddressField_serialize (addrDecoded sampleAddr2)))]] :=
  ⟨(token_list_roundtrip [sampleAddr1, sampleAddr2] (by decide)).1,
   (token_list_roundtrip [sampleAddr1, sampleAddr2] (by decide)).2.1⟩
